import Mathlib

/-!
Verification of the spica-mcp-server tool layer against its specification.

The development shallowly embeds the parts of the TypeScript source that the
claims depend on:

* a model of JavaScript/JSON values (`JVal`) with JavaScript truthiness,
  association-list objects, the spread-merge used by the update tools, and a
  model of two-space `JSON.stringify` pretty printing;
* the request adapter `makeSpicaRequest` (src/server.ts lines 91-133), with
  the transport passed in as a function so that issued requests and transport
  failures are observable;
* the payload builders of the bucket/identity/apikey/policy update tools, the
  bucket-create body with its defaults, the bucket-data-list query-string
  builder, and the apikey-create body plus its policy-attachment loop;
* the score-aggregation and best-file selection of the `answer_question`
  tool (src/unnamed/part_004, second registerDeepResearchTools copy).

Machine numbers are modelled as `Int` (the claims only involve integral
values), and vector-store relevance scores likewise.
-/

/-- Model of a JavaScript value as it flows through the tool handlers.
`undef` models the JavaScript `undefined` value (it can appear as an object
field value, e.g. an omitted optional argument placed in an object literal). -/
inductive JVal where
  | null : JVal
  | undef : JVal
  | bool : Bool → JVal
  | num : Int → JVal
  | str : String → JVal
  | arr : List JVal → JVal
  | obj : List (String × JVal) → JVal

/-- An object is an association list of fields, as constructed by the
object literals in the source. -/
abbrev Obj := List (String × JVal)

/-- JavaScript truthiness of a value: `undefined`, `null`, `false`, `0` and
the empty string are falsy, everything else (including empty arrays and
objects) is truthy. -/
def JVal.truthy : JVal → Bool
  | .null => false
  | .undef => false
  | .bool b => b
  | .num n => n != 0
  | .str s => s != ""
  | .arr _ => true
  | .obj _ => true

/-- Whether a value is the JavaScript `undefined`. -/
def JVal.isUndef : JVal → Bool
  | .undef => true
  | _ => false

/-- Field lookup in an object: the first binding of the key wins, matching
JavaScript property access on the objects the source builds. -/
def oLookup : Obj → String → Option JVal
  | [], _ => none
  | (k0, v) :: rest, k => if k0 = k then some v else oLookup rest k

/-- The JavaScript object spread `{ ...c, ...u }`: keys of `c` keep their
position but take the value from `u` when present, and keys of `u` absent
from `c` are appended in order. -/
def spreadMerge (c u : Obj) : Obj :=
  c.map (fun p => (p.1, (oLookup u p.1).getD p.2)) ++
    u.filter (fun p => (oLookup c p.1).isNone)

/-- Escape one character for a JSON string literal, as `JSON.stringify`
does for the characters that occur in the modelled values. -/
def escapeJsonChar (c : Char) : String :=
  if c = '"' then "\\\""
  else if c = '\\' then "\\\\"
  else if c = '\n' then "\\n"
  else if c = '\t' then "\\t"
  else if c = '\r' then "\\r"
  else String.singleton c

/-- A JSON string literal with its surrounding quotes. -/
def quoteJson (s : String) : String :=
  "\"" ++ String.join (s.toList.map escapeJsonChar) ++ "\""

/-- A run of spaces used for `JSON.stringify` indentation. -/
def indentStr (n : Nat) : String :=
  String.mk (List.replicate n ' ')

mutual

/-- Model of `JSON.stringify(v, null, 2)` at a given indentation level. -/
def prettyJsonAux : Nat → JVal → String
  | _, .null => "null"
  | _, .undef => "undefined"
  | _, .bool b => if b then "true" else "false"
  | _, .num n => toString n
  | _, .str s => quoteJson s
  | ind, .arr xs =>
    match xs with
    | [] => "[]"
    | _ => "[\n" ++ String.intercalate ",\n" (prettyJsonItems (ind + 2) xs) ++
        "\n" ++ indentStr ind ++ "]"
  | ind, .obj fs =>
    match prettyJsonFields (ind + 2) fs with
    | [] => "\x7b\x7d"
    | entries => "\x7b\n" ++ String.intercalate ",\n" entries ++
        "\n" ++ indentStr ind ++ "\x7d"

/-- The rendered lines for the items of an array (an `undefined` item is
rendered as `null`, as `JSON.stringify` does). -/
def prettyJsonItems : Nat → List JVal → List String
  | _, [] => []
  | ind, v :: rest =>
    (indentStr ind ++ (if v.isUndef then "null" else prettyJsonAux ind v)) ::
      prettyJsonItems ind rest

/-- The rendered lines for the fields of an object; fields whose value is
`undefined` are dropped, as `JSON.stringify` drops them. -/
def prettyJsonFields : Nat → List (String × JVal) → List String
  | _, [] => []
  | ind, (k, v) :: rest =>
    if v.isUndef then prettyJsonFields ind rest
    else (indentStr ind ++ quoteJson k ++ ": " ++ prettyJsonAux ind v) ::
      prettyJsonFields ind rest

end

/-- Model of `JSON.stringify(v, null, 2)`. -/
def prettyJson (v : JVal) : String := prettyJsonAux 0 v

/-- Configuration of the adapter: base URL and API key, as read from the
environment or config.json. -/
structure SpicaConfig where
  spicaUrl : String
  apiKey : String

/-- An HTTP request as handed to the axios client: the verb actually
dispatched, the full URL, the headers, and the JSON body (absent for GET and
DELETE, which axios sends without a body in this code). -/
structure HttpRequest where
  verb : String
  url : String
  headers : List (String × String)
  body : Option JVal

/-- An error raised by the transport (axios): its message, and the response
body `err.response?.data` when a response reached the client (`none` models
both a missing response object and an undefined data field). -/
structure TransportError where
  message : String
  responseData : Option JVal

/-- The catch block of makeSpicaRequest: the error is re-raised with the
response body pretty-printed when `err.response?.data` is truthy, and with
the original error message otherwise (src/server.ts lines 126-132). -/
def normalizeSpicaError (e : TransportError) : String :=
  match e.responseData with
  | some d => if d.truthy then prettyJson d else e.message
  | none => e.message

/-- Model of the call replacing a trailing slash, `baseUrl.replace(...)`:
drop one trailing slash if present. -/
def stripTrailingSlash (s : String) : String :=
  if s.data.getLast? = some '/' then String.mk s.data.dropLast else s

/-- Model of `method.toLowerCase()`, written over the character list so
that it evaluates inside the kernel. -/
def lowerString (s : String) : String :=
  String.mk (s.data.map Char.toLower)

/-- Dispatch one request through the transport and normalize a failure,
modelling the try/catch around the axios call. -/
def spicaDispatch (transport : HttpRequest → Except TransportError JVal)
    (req : HttpRequest) : List HttpRequest × Except String JVal :=
  ([req],
    match transport req with
    | .ok d => .ok d
    | .error e => .error (normalizeSpicaError e))

/-- The full URL of a request: base URL with one trailing slash stripped,
the fixed `/api` prefix, and the endpoint. -/
def spicaUrlOf (cfg : SpicaConfig) (endpoint : String) : String :=
  stripTrailingSlash cfg.spicaUrl ++ "/api" ++ endpoint

/-- The headers attached to every request: a JSON content type and the raw
API key as the Authorization value. -/
def spicaHeaders (cfg : SpicaConfig) : List (String × String) :=
  [("Content-Type", "application/json"), ("Authorization", cfg.apiKey)]

/-- Model of makeSpicaRequest (src/server.ts lines 91-133, identical in
src/unnamed/part_000 lines 35-77): checks the configuration, builds the URL
and headers, lowercases the verb and dispatches get/post/put/delete; any
other verb throws an unsupported-method error inside the try block, which the
catch then re-raises unchanged (it carries no response). The returned list
is the sequence of requests actually issued to the transport. -/
def makeSpicaRequest (cfg : SpicaConfig)
    (transport : HttpRequest → Except TransportError JVal)
    (method endpoint : String) (data : Option JVal) :
    List HttpRequest × Except String JVal :=
  if cfg.spicaUrl = "" ∨ cfg.apiKey = "" then
    ([], .error "Spica URL and API key must be configured in environment variables or config.json")
  else if lowerString method = "get" then
    spicaDispatch transport ⟨"GET", spicaUrlOf cfg endpoint, spicaHeaders cfg, none⟩
  else if lowerString method = "post" then
    spicaDispatch transport ⟨"POST", spicaUrlOf cfg endpoint, spicaHeaders cfg, data⟩
  else if lowerString method = "put" then
    spicaDispatch transport ⟨"PUT", spicaUrlOf cfg endpoint, spicaHeaders cfg, data⟩
  else if lowerString method = "delete" then
    spicaDispatch transport ⟨"DELETE", spicaUrlOf cfg endpoint, spicaHeaders cfg, none⟩
  else ([], .error (normalizeSpicaError ⟨"Unsupported HTTP method: " ++ method, none⟩))

/-- A transport that accepts every request, used to exercise the adapter on
paths where no request should be issued at all. -/
def okTransport : HttpRequest → Except TransportError JVal :=
  fun _ => .ok JVal.null

/-- A concrete valid configuration for closed evaluations. -/
def cfg0 : SpicaConfig := ⟨"http://spica.test", "key0"⟩

/-- The function-update tool call (src/src/tools/functions.ts lines 81-97):
it asks the adapter for a PATCH on the function path. -/
def functionUpdateCall (cfg : SpicaConfig)
    (transport : HttpRequest → Except TransportError JVal)
    (id : String) (data : Option JVal) : List HttpRequest × Except String JVal :=
  makeSpicaRequest cfg transport "PATCH" ("/function/" ++ id) data

/-- The bucket-delete handler (src/server.ts lines 256-270): issues the
DELETE and maps the outcome to a success or failure text; the catch block is
modelled by totality over the adapter outcome. -/
def bucketDeleteTool (cfg : SpicaConfig)
    (transport : HttpRequest → Except TransportError JVal)
    (bucketId : String) : String :=
  match (makeSpicaRequest cfg transport "DELETE" ("/bucket/" ++ bucketId) none).2 with
  | .ok _ => "✅ Bucket deleted successfully"
  | .error m => "❌ Failed to delete bucket:\n" ++ m

/-- The bucket-list handler (src/server.ts lines 136-153). -/
def bucketListTool (cfg : SpicaConfig)
    (transport : HttpRequest → Except TransportError JVal) : String :=
  match (makeSpicaRequest cfg transport "GET" "/bucket" none).2 with
  | .ok d => "✅ Buckets retrieved successfully:\n" ++ prettyJson d
  | .error m => "❌ Failed to list buckets:\n" ++ m

/-- The merged PUT payload of bucket-update
(`{ ...currentData, ...updateData, _id: bucketId }`, src/src/tools/bucket.ts
line 102 and src/server.ts line 238). -/
def bucketUpdatePayload (currentData updateData : Obj) (bucketId : String) : Obj :=
  spreadMerge (spreadMerge currentData updateData) [("_id", JVal.str bucketId)]

/-- The merged PUT payload of passport-identity-update
(`{ ...current.data, ...update, _id: id }`, src/server.ts line 486). -/
def identityUpdatePayload (current update : Obj) (id : String) : Obj :=
  spreadMerge (spreadMerge current update) [("_id", JVal.str id)]

/-- The merged PUT payload of passport-apikey-update
(`{ ...current.data, ...update }`, src/server.ts line 638): note that no
identifier field is set. -/
def apikeyUpdatePayload (current update : Obj) : Obj :=
  spreadMerge current update

/-- The merged PUT payload of passport-policy-update
(`{ ...current.data, ...update }`, src/server.ts line 788): note that no
identifier field is set. -/
def policyUpdatePayload (current update : Obj) : Obj :=
  spreadMerge current update

/-- The request sequence of passport-apikey-update given the fetched current
object: one GET, then one PUT carrying the merged payload. -/
def apikeyUpdateRequests (id : String) (current update : Obj) :
    List (String × String × Option JVal) :=
  [("GET", "/passport/apikey/" ++ id, none),
   ("PUT", "/passport/apikey/" ++ id, some (JVal.obj (apikeyUpdatePayload current update)))]

/-- The request sequence of passport-policy-update. -/
def policyUpdateRequests (id : String) (current update : Obj) :
    List (String × String × Option JVal) :=
  [("GET", "/passport/policy/" ++ id, none),
   ("PUT", "/passport/policy/" ++ id, some (JVal.obj (policyUpdatePayload current update)))]

/-- The request sequence of passport-identity-update. -/
def identityUpdateRequests (id : String) (current update : Obj) :
    List (String × String × Option JVal) :=
  [("GET", "/passport/identity/" ++ id, none),
   ("PUT", "/passport/identity/" ++ id, some (JVal.obj (identityUpdatePayload current update id)))]

/-- The acl argument of bucket-create. -/
structure BucketAcl where
  read : String
  write : String

/-- The POST body of bucket-create (src/server.ts lines 174-196): the
supplied fields together with the defaulted optional ones and `order: 0`,
in the construction order of the source object literal. -/
def bucketCreateBody (title description : String) (properties : Obj)
    (icon primary : Option String) (readOnly history : Option Bool)
    (acl : Option BucketAcl) : Obj :=
  let aclV := acl.getD ⟨"true==true", "true==true"⟩
  [("title", JVal.str title),
   ("description", JVal.str description),
   ("icon", JVal.str (icon.getD "view_stream")),
   ("primary", JVal.str (primary.getD "title")),
   ("readOnly", JVal.bool (readOnly.getD false)),
   ("history", JVal.bool (history.getD false)),
   ("properties", JVal.obj properties),
   ("acl", JVal.obj [("read", JVal.str aclV.read), ("write", JVal.str aclV.write)]),
   ("order", JVal.num 0)]

/-- Truthiness of an optional JavaScript number argument: defined and
nonzero (`if (limit)` in the source). -/
def jsNumTruthy : Option Int → Bool
  | some n => n != 0
  | none => false

/-- The GET endpoint built by bucket-data-list (src/src/tools/bucket-data.ts
lines 12-20): query parameters are appended only for truthy limit and skip
arguments, and the query string is attached only when nonempty. -/
def bucketDataListEndpoint (bucketId : String) (limit skip : Option Int) : String :=
  let base := "/bucket/" ++ bucketId ++ "/data"
  let params : List (String × String) :=
    (if jsNumTruthy limit then [("limit", toString (limit.getD 0))] else []) ++
      (if jsNumTruthy skip then [("skip", toString (skip.getD 0))] else [])
  let qs := String.intercalate "&" (params.map (fun p => p.1 ++ "=" ++ p.2))
  if qs = "" then base else base ++ "?" ++ qs

/-- The POST body of passport-apikey-create
(`const body = { name, description, active }` with `active = true` by
default, src/server.ts lines 594-596): the description key is present with
the JavaScript `undefined` value when the argument is omitted. -/
def apikeyCreateBody (name : String) (description : Option String)
    (active : Option Bool) : Obj :=
  [("name", JVal.str name),
   ("description", match description with
     | some d => JVal.str d
     | none => JVal.undef),
   ("active", JVal.bool (active.getD true))]

/-- The policy-attachment loop of passport-apikey-create (src/server.ts
lines 601-613): each element pairs a policy id with the outcome of its
attachment PUT; the loop attempts policies in order and returns from the
handler at the first failure, so no later policy is attempted. Returns the
ids actually attempted and the failure, if any. -/
def attachLoop : List (String × Except String Unit) →
    List String × Option (String × String)
  | [] => ([], none)
  | (pid, .ok _) :: rest =>
    let r := attachLoop rest
    (pid :: r.1, r.2)
  | (pid, .error e) :: _ => ([pid], some (pid, e))

/-- The text returned by passport-apikey-create after the attachment loop:
the partial-success warning naming the failing policy, or the success text
with the created key pretty-printed. -/
def apikeyCreateMessage (created : JVal)
    (calls : List (String × Except String Unit)) : String :=
  match (attachLoop calls).2 with
  | some fail =>
    "⚠️ API key created but failed to assign policy " ++ fail.1 ++ ":\n" ++ fail.2
  | none => "✅ API key created successfully:\n" ++ prettyJson created

/-- The requests issued by passport-apikey-create: the creation POST with
the three-field body, followed by one body-less attachment PUT per attempted
policy (`createdId` is the `_id` of the POST response). -/
def apikeyCreateRequests (name : String) (description : Option String)
    (active : Option Bool) (createdId : String)
    (calls : List (String × Except String Unit)) :
    List (String × String × Option JVal) :=
  ("POST", "/passport/apikey", some (JVal.obj (apikeyCreateBody name description active))) ::
    (attachLoop calls).1.map
      (fun pid => ("PUT", "/passport/apikey/" ++ createdId ++ "/policy/" ++ pid, none))

/-- One element of the vector-store search response consumed by
answer_question (src/unnamed/part_004 lines 342-374): the file id and score
may be absent, and each content entry may lack its text field. -/
structure SearchItem where
  file_id : Option String
  score : Option Int
  content : List (Option String)

/-- The texts collected from one search item: content entries with a truthy
(present and nonempty) text field. -/
def itemTexts (it : SearchItem) : List String :=
  it.content.filterMap (fun t =>
    match t with
    | some s => if s = "" then none else some s
    | none => none)

/-- Model of `fileScoreMap[fileId] = (fileScoreMap[fileId] || 0) + score`:
add a score to the per-file aggregate, keeping first-encounter key order. -/
def addScore : List (String × Int) → String → Int → List (String × Int)
  | [], k, s => [(k, s)]
  | (k0, v0) :: rest, k, s =>
    if k0 = k then (k0, v0 + s) :: rest else (k0, v0) :: addScore rest k s

/-- Model of `fileChunksMap[fileId].push(...)` with creation on first use,
keeping first-encounter key order. -/
def addChunks : List (String × List String) → String → List String →
    List (String × List String)
  | [], k, ts => [(k, ts)]
  | (k0, c0) :: rest, k, ts =>
    if k0 = k then (k0, c0 ++ ts) :: rest else (k0, c0) :: addChunks rest k ts

/-- The loop over the search results that fills the two per-file maps:
items without a file id are skipped and an absent or zero score contributes
0 (`item.score || 0`). -/
def buildMapsFrom (acc : List (String × Int) × List (String × List String)) :
    List SearchItem → List (String × Int) × List (String × List String)
  | [] => acc
  | it :: rest =>
    match it.file_id with
    | none => buildMapsFrom acc rest
    | some fid =>
      buildMapsFrom (addScore acc.1 fid (it.score.getD 0), addChunks acc.2 fid (itemTexts it)) rest

/-- The per-file score and chunk maps built from the search results. -/
def buildMaps (items : List SearchItem) :
    List (String × Int) × List (String × List String) :=
  buildMapsFrom ([], []) items

/-- Lookup of `fileScoreMap[k]` (0 for a missing key; the selection only
looks up keys of the map). -/
def scoreOf (m : List (String × Int)) (k : String) : Int :=
  match m.find? (fun p => p.1 == k) with
  | some p => p.2
  | none => 0

/-- Model of the reduce over `Object.keys(fileScoreMap)` comparing
aggregate scores: the accumulator is kept only when strictly greater, so a
later key wins a tie. -/
def selectBestFile (m : List (String × Int)) : Option String :=
  match m with
  | [] => none
  | (k0, _) :: rest =>
    some (rest.foldl (fun a b => if scoreOf m a > scoreOf m b.1 then a else b.1) k0)

/-- Lookup of `fileChunksMap[k]`. -/
def chunksOf (mc : List (String × List String)) (k : String) : List String :=
  match mc.find? (fun p => p.1 == k) with
  | some p => p.2
  | none => []

/-- The best file and its combined text
(`fileChunksMap[bestFileId].join("\n")`) selected by answer_question, or
`none` when no search result carried a file id. -/
def answerSelect (items : List SearchItem) : Option (String × String) :=
  match selectBestFile (buildMaps items).1 with
  | none => none
  | some k => some (k, String.intercalate "\n" (chunksOf (buildMaps items).2 k))

/-- The synthesis prompt template of answer_question with the combined
document text and the user question embedded (whitespace and punctuation
of the source template literal are normalized; the claims do not depend on
the exact template wording). -/
def answerQuestionPrompt (combined query : String) : String :=
  "Based on the document content below, provide a comprehensive answer to the user question.\nBe specific and cite relevant details from the document.\n\nDocument Content:\n" ++
    combined ++ "\n\nUser Question:\n" ++ query ++
    "\n\nPlease provide a detailed, helpful answer based on the document content.\nIf the document does not contain enough information to fully answer the question, mention what information is available and what might be missing."

/-- The prompt actually sent by answer_question for the given search
results and question. -/
def answerPromptOf (items : List SearchItem) (query : String) : Option String :=
  (answerSelect items).map (fun p => answerQuestionPrompt p.2 query)

/-- A search response with per-chunk scores summing to 5 for fileA and 7
for fileB (two chunks, 3 + 4). -/
def itemsC5 : List SearchItem :=
  [⟨some "fileA", some 5, [some "alpha"]⟩,
   ⟨some "fileB", some 3, [some "beta1"]⟩,
   ⟨some "fileB", some 4, [some "beta2"]⟩]

/-- A search response in which fileA and fileB tie with aggregate score 5,
fileA encountered first. -/
def itemsC5Tie : List SearchItem :=
  [⟨some "fileA", some 5, [some "alpha"]⟩,
   ⟨some "fileB", some 5, [some "beta"]⟩]

/-- A remote failure carrying a JSON error body. -/
def err0 : TransportError :=
  ⟨"Request failed with status code 404",
   some (JVal.obj [("message", JVal.str "Not Found")])⟩

/-- A transport on which every request fails with `err0`. -/
def failTransport : HttpRequest → Except TransportError JVal :=
  fun _ => .error err0

/-- The request the adapter issues for GET /bucket under `cfg0`. -/
def req0 : HttpRequest :=
  ⟨"GET", "http://spica.test/api/bucket",
   [("Content-Type", "application/json"), ("Authorization", "key0")], none⟩

/-- A transport failure whose response body is present but falsy: the
remote answered with an empty-string body. -/
def errFalsyBody : TransportError :=
  ⟨"Network Error", some (JVal.str "")⟩

theorem oLookup_append (l₁ l₂ : Obj) (k : String) :
    oLookup (l₁ ++ l₂) k = (oLookup l₁ k).orElse (fun _ => oLookup l₂ k) := by
  induction l₁ with
  | nil => simp [oLookup, Option.orElse]
  | cons p rest ih =>
    obtain ⟨k0, v⟩ := p
    by_cases h : k0 = k <;> simp [oLookup, h, ih, Option.orElse]

theorem oLookup_map_overwrite (u c : Obj) (k : String) :
    oLookup (c.map (fun p => (p.1, (oLookup u p.1).getD p.2))) k =
      (oLookup c k).map (fun v => (oLookup u k).getD v) := by
  induction c with
  | nil => rfl
  | cons p rest ih =>
    obtain ⟨k0, v⟩ := p
    by_cases h : k0 = k
    · subst h; simp [oLookup]
    · simp [oLookup, h, ih]

theorem oLookup_filter_notin (c u : Obj) (k : String) :
    oLookup (u.filter (fun p => (oLookup c p.1).isNone)) k =
      if (oLookup c k).isNone then oLookup u k else none := by
  induction u with
  | nil => simp [oLookup]
  | cons p rest ih =>
    obtain ⟨k1, w⟩ := p
    by_cases hk : k1 = k
    · subst hk
      cases hc : (oLookup c k1).isNone <;>
        simp [List.filter_cons, hc, oLookup, ih]
    · cases hc : (oLookup c k1).isNone <;>
        simp [List.filter_cons, hc, oLookup, hk, ih]

theorem oLookup_spreadMerge (c u : Obj) (k : String) :
    oLookup (spreadMerge c u) k = (oLookup u k).orElse (fun _ => oLookup c k) := by
  unfold spreadMerge
  rw [oLookup_append, oLookup_map_overwrite, oLookup_filter_notin]
  cases hc : oLookup c k <;> cases hu : oLookup u k <;>
    simp [Option.orElse]

theorem oLookup_merge_setId (c u : Obj) (id k : String) :
    oLookup (spreadMerge (spreadMerge c u) [("_id", JVal.str id)]) k =
      (if k = "_id" then some (JVal.str id)
       else (oLookup u k).orElse (fun _ => oLookup c k)) := by
  rw [oLookup_spreadMerge, oLookup_spreadMerge]
  by_cases h : k = "_id"
  · subst h; simp [oLookup, Option.orElse]
  · have h2 : ¬("_id" = k) := fun hEq => h hEq.symm
    simp [oLookup, h, h2, Option.orElse]

theorem addScore_keys (m : List (String × Int)) (k : String) (s : Int) :
    (addScore m k s).map Prod.fst =
      if k ∈ m.map Prod.fst then m.map Prod.fst else m.map Prod.fst ++ [k] := by
  induction m with
  | nil => simp [addScore]
  | cons p rest ih =>
    obtain ⟨k0, v0⟩ := p
    by_cases h : k0 = k
    · subst h; simp [addScore]
    · have h2 : ¬(k = k0) := fun hEq => h hEq.symm
      by_cases hm : k ∈ rest.map Prod.fst <;>
        simp [addScore, h, h2, hm, ih]

theorem addScore_nodup (m : List (String × Int)) (k : String) (s : Int)
    (h : (m.map Prod.fst).Nodup) : ((addScore m k s).map Prod.fst).Nodup := by
  rw [addScore_keys]
  by_cases hm : k ∈ m.map Prod.fst
  · simpa [hm] using h
  · simp [hm, List.nodup_append, h]

theorem buildMapsFrom_fst_nodup (items : List SearchItem) :
    ∀ acc : List (String × Int) × List (String × List String),
      ((acc.1).map Prod.fst).Nodup →
      (((buildMapsFrom acc items).1).map Prod.fst).Nodup := by
  induction items with
  | nil => intro acc h; simpa [buildMapsFrom] using h
  | cons it rest ih =>
    intro acc h
    cases hf : it.file_id with
    | none => simpa [buildMapsFrom, hf] using ih acc h
    | some fid =>
      simpa [buildMapsFrom, hf] using ih _ (addScore_nodup _ _ _ h)

theorem buildMaps_fst_nodup (items : List SearchItem) :
    (((buildMaps items).1).map Prod.fst).Nodup :=
  buildMapsFrom_fst_nodup items ([], []) (by simp)

theorem scoreOf_mem (m : List (String × Int)) (h : (m.map Prod.fst).Nodup)
    (p : String × Int) (hp : p ∈ m) : scoreOf m p.1 = p.2 := by
  induction m with
  | nil => cases hp
  | cons q rest ih =>
    rcases List.mem_cons.mp hp with hq | hp2
    · subst hq; simp [scoreOf]
    · rw [List.map_cons, List.nodup_cons] at h
      have hne : ¬(q.1 == p.1) = true := by
        intro hb
        have hEq : q.1 = p.1 := by simpa using hb
        exact h.1 (hEq ▸ List.mem_map_of_mem Prod.fst hp2)
      have ihr := ih h.2 hp2
      have hfind : List.find? (fun r => r.1 == p.1) (q :: rest) =
          List.find? (fun r => r.1 == p.1) rest :=
        List.find?_cons_of_neg _ hne
      simpa [scoreOf, hfind] using ihr

theorem foldl_pick (s : String → Int) (l : List (String × Int)) :
    ∀ a : String,
      (l.foldl (fun acc p => if s acc > s p.1 then acc else p.1) a = a ∧
        ∀ p ∈ l, s p.1 < s a) ∨
      (∃ pre q post, l = pre ++ q :: post ∧
        l.foldl (fun acc p => if s acc > s p.1 then acc else p.1) a = q.1 ∧
        s a ≤ s q.1 ∧ (∀ p ∈ pre, s p.1 ≤ s q.1) ∧ (∀ p ∈ post, s p.1 < s q.1)) := by
  induction l with
  | nil => intro a; left; simp
  | cons p rest ih =>
    intro a
    simp only [List.foldl_cons]
    by_cases hp : s a > s p.1
    · rw [if_pos hp]
      rcases ih a with ⟨heq, hall⟩ | ⟨pre, q, post, hl, hfold, hle, hpre, hpost⟩
      · left
        refine ⟨heq, ?_⟩
        intro r hr
        rcases List.mem_cons.mp hr with hr | hr
        · exact hr ▸ hp
        · exact hall r hr
      · right
        refine ⟨p :: pre, q, post, by simp [hl], hfold, hle, ?_, hpost⟩
        intro r hr
        rcases List.mem_cons.mp hr with hr | hr
        · exact hr ▸ le_trans (le_of_lt hp) hle
        · exact hpre r hr
    · rw [if_neg hp]
      push_neg at hp
      rcases ih p.1 with ⟨heq, hall⟩ | ⟨pre, q, post, hl, hfold, hle, hpre, hpost⟩
      · right
        exact ⟨[], p, rest, by simp, heq, hp, by simp, hall⟩
      · right
        refine ⟨p :: pre, q, post, by simp [hl], hfold, le_trans hp hle, ?_, hpost⟩
        intro r hr
        rcases List.mem_cons.mp hr with hr | hr
        · exact hr ▸ hle
        · exact hpre r hr

theorem selectBestFile_spec (m : List (String × Int))
    (hnd : (m.map Prod.fst).Nodup) (k : String)
    (hk : selectBestFile m = some k) :
    (∀ p ∈ m, p.2 ≤ scoreOf m k) ∧
    (∃ pre post, m = pre ++ (k, scoreOf m k) :: post ∧
      ∀ p ∈ post, p.2 < scoreOf m k) := by
  match m, hk with
  | (k0, v0) :: rest, hk =>
    simp only [selectBestFile, Option.some.injEq] at hk
    rcases foldl_pick (scoreOf ((k0, v0) :: rest)) rest k0 with
      ⟨heq, hall⟩ | ⟨pre, q, post, hl, hfold, hle, hpre, hpost⟩
    · rw [heq] at hk
      subst hk
      have hk0 : scoreOf ((k0, v0) :: rest) k0 = v0 :=
        scoreOf_mem _ hnd (k0, v0) (by simp)
      constructor
      · intro p hp
        rcases List.mem_cons.mp hp with hp | hp
        · subst hp; simp [hk0]
        · have hps : scoreOf ((k0, v0) :: rest) p.1 = p.2 :=
            scoreOf_mem _ hnd p (by simp [hp])
          exact le_of_lt (hps ▸ hall p hp)
      · refine ⟨[], rest, by simp [hk0], ?_⟩
        intro p hp
        have hps : scoreOf ((k0, v0) :: rest) p.1 = p.2 :=
          scoreOf_mem _ hnd p (by simp [hp])
        exact hps ▸ hall p hp
    · rw [hfold] at hk
      subst hk
      have hqm : q ∈ (k0, v0) :: rest := by simp [hl]
      have hq : scoreOf ((k0, v0) :: rest) q.1 = q.2 :=
        scoreOf_mem _ hnd q hqm
      have hk0 : scoreOf ((k0, v0) :: rest) k0 = v0 :=
        scoreOf_mem _ hnd (k0, v0) (by simp)
      constructor
      · intro p hp
        rcases List.mem_cons.mp hp with hp | hp
        · subst hp; exact le_trans (le_of_eq hk0.symm) hle
        · rw [hl] at hp
          rcases List.mem_append.mp hp with hp | hp
          · have hps : scoreOf ((k0, v0) :: rest) p.1 = p.2 :=
              scoreOf_mem _ hnd p (by simp [hl, hp])
            exact hps ▸ hpre p hp
          · rcases List.mem_cons.mp hp with hp | hp
            · subst hp; simp [hq]
            · have hps : scoreOf ((k0, v0) :: rest) p.1 = p.2 :=
                scoreOf_mem _ hnd p (by simp [hl, hp])
              exact le_of_lt (hps ▸ hpost p hp)
      · refine ⟨(k0, v0) :: pre, post, ?_, ?_⟩
        · rw [hq, hl]
          simp
        · intro p hp
          have hps : scoreOf ((k0, v0) :: rest) p.1 = p.2 :=
            scoreOf_mem _ hnd p (by simp [hl, hp])
          exact hps ▸ hpost p hp

/-- C1: for bucket-update and passport-identity-update, the outgoing PUT
payload is the shallow merge of the fetched current object with the partial
update (keys absent from the update preserved, keys present overwritten)
with the identifier field set to the given id; in particular the current
object a=1, b=2 updated with b=3 yields the payload a=1, b=3, _id=id. -/
theorem c1_update_merge :
    (∀ (current update : Obj) (id k : String),
      oLookup (bucketUpdatePayload current update id) k =
        (if k = "_id" then some (JVal.str id)
         else (oLookup update k).orElse (fun _ => oLookup current k))) ∧
    (∀ (current update : Obj) (id k : String),
      oLookup (identityUpdatePayload current update id) k =
        (if k = "_id" then some (JVal.str id)
         else (oLookup update k).orElse (fun _ => oLookup current k))) ∧
    bucketUpdatePayload [("a", JVal.num 1), ("b", JVal.num 2)]
        [("b", JVal.num 3)] "id1" =
      [("a", JVal.num 1), ("b", JVal.num 3), ("_id", JVal.str "id1")] :=
  ⟨fun current update id k => oLookup_merge_setId current update id k,
   fun current update id k => oLookup_merge_setId current update id k,
   rfl⟩

/-- C2: the claim states that a request with method patch (any case) issues
a PATCH; the adapter in fact has no patch case, so the lowercased verb
falls into the default branch and the call fails with the
unsupported-method error without issuing any request. The function-update
tool, documented as a partial update using PATCH, therefore always fails:
the code contradicts its own tool description. -/
theorem c2_patch_unsupported :
    makeSpicaRequest cfg0 okTransport "PATCH" "/function/f1" (some (JVal.obj [])) =
      ([], Except.error "Unsupported HTTP method: PATCH") ∧
    makeSpicaRequest cfg0 okTransport "patch" "/function/f1" none =
      ([], Except.error "Unsupported HTTP method: patch") ∧
    functionUpdateCall cfg0 okTransport "f1" (some (JVal.obj [("env", JVal.str "x")])) =
      ([], Except.error "Unsupported HTTP method: PATCH") :=
  ⟨rfl, rfl, rfl⟩

/-- C3: a bucket-create invocation supplying only title, description and
properties produces exactly those fields plus the documented defaults
(icon view_stream, primary title, readOnly false, history false, the
permissive acl, order 0); moreover the body always consists of exactly
these nine top-level fields. -/
theorem c3_bucket_create_defaults :
    (∀ (t d : String) (p : Obj),
      bucketCreateBody t d p none none none none none =
        [("title", JVal.str t), ("description", JVal.str d),
         ("icon", JVal.str "view_stream"), ("primary", JVal.str "title"),
         ("readOnly", JVal.bool false), ("history", JVal.bool false),
         ("properties", JVal.obj p),
         ("acl", JVal.obj [("read", JVal.str "true==true"),
                           ("write", JVal.str "true==true")]),
         ("order", JVal.num 0)]) ∧
    (∀ (t d : String) (p : Obj) (i pr : Option String) (ro hi : Option Bool)
        (a : Option BucketAcl),
      (bucketCreateBody t d p i pr ro hi a).map Prod.fst =
        ["title", "description", "icon", "primary", "readOnly", "history",
         "properties", "acl", "order"]) :=
  ⟨fun _ _ _ => rfl, fun _ _ _ _ _ _ _ _ => rfl⟩

/-- C4: when the attachment PUT for the k-th policy fails, the loop
attempts exactly the first k policies (none after the failing one) and the
handler returns the partial-success text naming exactly the failing policy
id; the created key is reported inside that text and nothing is rolled
back. -/
theorem c4_apikey_policy_attach :
    ∀ (created : JVal) (pre : List (String × Except String Unit))
      (pid e : String) (post : List (String × Except String Unit)),
      (∀ c ∈ pre, c.2 = Except.ok ()) →
      attachLoop (pre ++ (pid, Except.error e) :: post) =
        (pre.map Prod.fst ++ [pid], some (pid, e)) ∧
      apikeyCreateMessage created (pre ++ (pid, Except.error e) :: post) =
        "⚠️ API key created but failed to assign policy " ++ pid ++ ":\n" ++ e := by
  intro created pre pid e post hpre
  have hloop : attachLoop (pre ++ (pid, Except.error e) :: post) =
      (pre.map Prod.fst ++ [pid], some (pid, e)) := by
    induction pre with
    | nil => rfl
    | cons c rest ih =>
      obtain ⟨q, out⟩ := c
      have hq : out = Except.ok () := hpre (q, out) (by simp)
      subst hq
      have hih := ih (fun c hc => hpre c (List.mem_cons_of_mem _ hc))
      simp [attachLoop, hih]
  exact ⟨hloop, by simp [apikeyCreateMessage, hloop]⟩

/-- Witness for C4: with three policies of which the second attachment
fails, exactly the first two are attempted and the warning names p2. -/
theorem c4_apikey_policy_attach_witness :
    attachLoop ([("p1", Except.ok ())] ++
        ("p2", Except.error "boom") :: [("p3", Except.ok ())]) =
      (["p1", "p2"], some ("p2", "boom")) ∧
    apikeyCreateMessage JVal.null ([("p1", Except.ok ())] ++
        ("p2", Except.error "boom") :: [("p3", Except.ok ())]) =
      "⚠️ API key created but failed to assign policy p2:\nboom" := by
  have h := c4_apikey_policy_attach JVal.null [("p1", Except.ok ())] "p2" "boom"
    [("p3", Except.ok ())] (by simp)
  exact ⟨h.1, h.2⟩

/-- C7, amended: passport-identity-update merges and re-asserts the
identifier field like bucket-update, but passport-apikey-update and
passport-policy-update only shallow-merge the partial update onto the
fetched object and PUT the result without setting the identifier field;
each issues one GET followed by one PUT carrying the merged object. -/
theorem c7_update_shapes :
    (∀ (c u : Obj) (id k : String),
      oLookup (identityUpdatePayload c u id) k =
        (if k = "_id" then some (JVal.str id)
         else (oLookup u k).orElse (fun _ => oLookup c k))) ∧
    (∀ (c u : Obj) (k : String),
      oLookup (apikeyUpdatePayload c u) k =
        (oLookup u k).orElse (fun _ => oLookup c k)) ∧
    (∀ (c u : Obj) (k : String),
      oLookup (policyUpdatePayload c u) k =
        (oLookup u k).orElse (fun _ => oLookup c k)) ∧
    (∀ (id : String) (c u : Obj),
      apikeyUpdateRequests id c u =
        [("GET", "/passport/apikey/" ++ id, none),
         ("PUT", "/passport/apikey/" ++ id, some (JVal.obj (spreadMerge c u)))]) ∧
    (∀ (id : String) (c u : Obj),
      policyUpdateRequests id c u =
        [("GET", "/passport/policy/" ++ id, none),
         ("PUT", "/passport/policy/" ++ id, some (JVal.obj (spreadMerge c u)))]) :=
  ⟨fun c u id k => oLookup_merge_setId c u id k,
   fun c u k => oLookup_spreadMerge c u k,
   fun c u k => oLookup_spreadMerge c u k,
   fun _ _ _ => rfl, fun _ _ _ => rfl⟩

/-- Counterexample for C7 as stated: the apikey-update payload for a
fetched object without an identifier field and the update active=false
contains no identifier field at all, while bucket-update in the same
situation re-asserts it; so the apikey (and policy) update does not follow
the bucket-update shape claimed. -/
theorem c7_missing_id_counterexample :
    oLookup (apikeyUpdatePayload [("name", JVal.str "x")]
        [("active", JVal.bool false)]) "_id" = none ∧
    oLookup (bucketUpdatePayload [("name", JVal.str "x")]
        [("active", JVal.bool false)] "k1") "_id" = some (JVal.str "k1") :=
  ⟨rfl, rfl⟩

/-- C8: the embedded handlers are total over every adapter outcome and map
a failure to the textual failure string rather than propagating it; in
particular a delete against an already-deleted resource (the transport
failing with a remote error) returns the failure text carrying the
normalized remote message. -/
theorem c8_handler_totality :
    (∀ (cfg : SpicaConfig) (transport : HttpRequest → Except TransportError JVal)
        (id : String),
      bucketDeleteTool cfg transport id = "✅ Bucket deleted successfully" ∨
      ∃ m, bucketDeleteTool cfg transport id = "❌ Failed to delete bucket:\n" ++ m) ∧
    (∀ (cfg : SpicaConfig) (transport : HttpRequest → Except TransportError JVal),
      (∃ d, bucketListTool cfg transport =
        "✅ Buckets retrieved successfully:\n" ++ prettyJson d) ∨
      ∃ m, bucketListTool cfg transport = "❌ Failed to list buckets:\n" ++ m) ∧
    (∀ (e : TransportError) (id : String),
      bucketDeleteTool cfg0 (fun _ => Except.error e) id =
        "❌ Failed to delete bucket:\n" ++ normalizeSpicaError e) := by
  refine ⟨?_, ?_, ?_⟩
  · intro cfg transport id
    cases h : (makeSpicaRequest cfg transport "DELETE" ("/bucket/" ++ id) none).2 with
    | ok d => left; simp [bucketDeleteTool, h]
    | error m => right; exact ⟨m, by simp [bucketDeleteTool, h]⟩
  · intro cfg transport
    cases h : (makeSpicaRequest cfg transport "GET" "/bucket" none).2 with
    | ok d => left; exact ⟨d, by simp [bucketListTool, h]⟩
    | error m => right; exact ⟨m, by simp [bucketListTool, h]⟩
  · intro e id
    rfl

/-- C10: the creation POST body of passport-apikey-create consists of
exactly the fields name, description and active (description carrying the
undefined value when omitted), active defaults to true, the body has no
policies field, and the policies argument only drives the body-less
per-policy attachment PUTs that follow the creation POST. -/
theorem c10_apikey_create_body :
    (∀ (name : String) (d : Option String) (a : Option Bool),
      (apikeyCreateBody name d a).map Prod.fst = ["name", "description", "active"]) ∧
    (∀ (name : String) (d : Option String) (a : Option Bool),
      oLookup (apikeyCreateBody name d a) "policies" = none) ∧
    (∀ (name : String) (d : Option String),
      oLookup (apikeyCreateBody name d none) "active" = some (JVal.bool true)) ∧
    (∀ (name : String) (d : Option String) (a : Option Bool) (createdId : String)
        (calls : List (String × Except String Unit)),
      apikeyCreateRequests name d a createdId calls =
        ("POST", "/passport/apikey", some (JVal.obj (apikeyCreateBody name d a))) ::
          (attachLoop calls).1.map
            (fun pid => ("PUT", "/passport/apikey/" ++ createdId ++ "/policy/" ++ pid, none))) :=
  ⟨fun _ _ _ => rfl, fun _ _ _ => rfl, fun _ _ => rfl, fun _ _ _ _ _ => rfl⟩

theorem strGlue (a b c : String) (h : a ++ b = c) {x : String} :
    a ++ (b ++ x) = c ++ x := by
  rw [← String.append_assoc, h]

theorem appendNeEmpty (a b : String) (h : a ≠ "") : a ++ b ≠ "" := by
  intro hab
  apply h
  have hlen := congrArg String.length hab
  simp [String.length_append] at hlen
  have hnil : a.data = [] := List.length_eq_zero.mp hlen.1
  exact String.ext (by simp [hnil])

theorem makeSpicaRequest_cases (cfg : SpicaConfig)
    (transport : HttpRequest → Except TransportError JVal)
    (method endpoint : String) (data : Option JVal) :
    (∃ req, makeSpicaRequest cfg transport method endpoint data =
      spicaDispatch transport req) ∨
    (makeSpicaRequest cfg transport method endpoint data).1 = [] := by
  unfold makeSpicaRequest
  split
  · right; rfl
  · split
    · left; exact ⟨_, rfl⟩
    · split
      · left; exact ⟨_, rfl⟩
      · split
        · left; exact ⟨_, rfl⟩
        · split
          · left; exact ⟨_, rfl⟩
          · right; rfl

/-- C5, amended: answer_question selects the file whose per-chunk scores
sum to the maximal aggregate and builds the prompt from the concatenated
chunks of that file; on a tie in aggregate score the file encountered last
(in first-encounter order of the provider results) among those with the
maximal aggregate is chosen, not the first. -/
theorem c5_best_file_selection :
    ∀ (items : List SearchItem) (query k combined : String),
      answerSelect items = some (k, combined) →
      (∀ p ∈ (buildMaps items).1, p.2 ≤ scoreOf (buildMaps items).1 k) ∧
      (∃ pre post,
        (buildMaps items).1 = pre ++ (k, scoreOf (buildMaps items).1 k) :: post ∧
        ∀ p ∈ post, p.2 < scoreOf (buildMaps items).1 k) ∧
      combined = String.intercalate "\n" (chunksOf (buildMaps items).2 k) ∧
      answerPromptOf items query = some (answerQuestionPrompt combined query) := by
  intro items query k combined h
  unfold answerSelect at h
  cases hsel : selectBestFile (buildMaps items).1 with
  | none => rw [hsel] at h; exact absurd h (by simp)
  | some k2 =>
    rw [hsel] at h
    simp only [Option.some.injEq, Prod.mk.injEq] at h
    obtain ⟨hk, hcomb⟩ := h
    subst hk
    have spec := selectBestFile_spec _ (buildMaps_fst_nodup items) _ hsel
    refine ⟨spec.1, spec.2, hcomb.symm, ?_⟩
    unfold answerPromptOf answerSelect
    rw [hsel]
    simp [hcomb]

/-- Witness for C5: with chunk scores 5 for fileA and 3 + 4 = 7 for fileB,
fileB is selected and the prompt embeds its concatenated chunks. -/
theorem c5_best_file_selection_witness :
    answerSelect itemsC5 = some ("fileB", "beta1\nbeta2") ∧
    answerPromptOf itemsC5 "q" = some (answerQuestionPrompt "beta1\nbeta2" "q") := by
  have h := c5_best_file_selection itemsC5 "q" "fileB" "beta1\nbeta2" rfl
  exact ⟨rfl, h.2.2.2⟩

/-- Counterexample for C5 as stated: with fileA and fileB tied at aggregate
score 5 and fileA first in the provider order, the code selects fileB (the
reduce keeps the accumulator only on strictly greater score), not the
first-encountered fileA the claim requires. -/
theorem c5_tie_break_counterexample :
    answerSelect itemsC5Tie = some ("fileB", "beta") ∧
    answerSelect itemsC5Tie ≠ some ("fileA", "alpha") := by
  refine ⟨rfl, ?_⟩
  intro h
  rw [show answerSelect itemsC5Tie = some ("fileB", "beta") from rfl] at h
  simp at h

/-- C6, amended: every call of the adapter issues at most one request (no
retry), and a dispatched call whose transport fails is re-raised as an
error whose message is the response body pretty-printed as JSON when a
truthy body is present, and the transport error message otherwise (a
present but falsy body, such as an empty string, also falls back to the
transport message). -/
theorem c6_error_normalization :
    ∀ (cfg : SpicaConfig) (transport : HttpRequest → Except TransportError JVal)
      (method endpoint : String) (data : Option JVal),
      (makeSpicaRequest cfg transport method endpoint data).1.length ≤ 1 ∧
      (∀ (req : HttpRequest) (err : TransportError),
        (makeSpicaRequest cfg transport method endpoint data).1 = [req] →
        transport req = Except.error err →
        (makeSpicaRequest cfg transport method endpoint data).2 =
          Except.error (match err.responseData with
            | some d => if d.truthy then prettyJson d else err.message
            | none => err.message)) := by
  intro cfg transport method endpoint data
  rcases makeSpicaRequest_cases cfg transport method endpoint data with ⟨r, h⟩ | h
  · constructor
    · rw [h]; simp [spicaDispatch]
    · intro req err h1 h2
      rw [h] at h1 ⊢
      simp only [spicaDispatch] at h1
      have hr : r = req := by simpa using h1
      subst hr
      simp only [spicaDispatch, h2]
      cases hrd : err.responseData with
      | none => simp [normalizeSpicaError, hrd]
      | some d => simp [normalizeSpicaError, hrd]
  · constructor
    · rw [h]; simp
    · intro req err h1 h2
      rw [h] at h1
      exact absurd h1 (by simp)

/-- Witness for C6: a failing GET whose remote body is a truthy JSON object
is re-raised with the body pretty-printed. -/
theorem c6_error_normalization_witness :
    (makeSpicaRequest cfg0 failTransport "GET" "/bucket" none).2 =
      Except.error (prettyJson (JVal.obj [("message", JVal.str "Not Found")])) := by
  have h := (c6_error_normalization cfg0 failTransport "GET" "/bucket" none).2
    req0 err0 rfl rfl
  exact h

/-- Counterexample for C6 as stated: a transport failure whose response
body is present but falsy (the empty string) is re-raised with the
transport error message, not with the pretty-printed body the claim
requires for every present body. -/
theorem c6_falsy_body_counterexample :
    (makeSpicaRequest cfg0 (fun _ => Except.error errFalsyBody) "GET" "/bucket" none).2 =
      Except.error "Network Error" ∧
    "Network Error" ≠ prettyJson (JVal.str "") := by
  refine ⟨rfl, ?_⟩
  intro h
  rw [show prettyJson (JVal.str "") = "\"\"" from rfl] at h
  simp at h

/-- C9, amended: a supplied nonzero limit or skip is passed through as the
correspondingly named query parameter of the GET endpoint and omitted when
not supplied; a supplied value of zero is falsy in the truthiness check and
is treated exactly like an absent argument. -/
theorem c9_pagination_params :
    ∀ b : String,
      bucketDataListEndpoint b none none = "/bucket/" ++ b ++ "/data" ∧
      (∀ l : Int, l ≠ 0 →
        bucketDataListEndpoint b (some l) none =
          "/bucket/" ++ b ++ "/data?limit=" ++ toString l) ∧
      (∀ s : Int, s ≠ 0 →
        bucketDataListEndpoint b none (some s) =
          "/bucket/" ++ b ++ "/data?skip=" ++ toString s) ∧
      (∀ l s : Int, l ≠ 0 → s ≠ 0 →
        bucketDataListEndpoint b (some l) (some s) =
          "/bucket/" ++ b ++ "/data?limit=" ++ toString l ++ "&skip=" ++ toString s) ∧
      (∀ s : Option Int,
        bucketDataListEndpoint b (some 0) s = bucketDataListEndpoint b none s) ∧
      (∀ l : Option Int,
        bucketDataListEndpoint b l (some 0) = bucketDataListEndpoint b l none) := by
  intro b
  have hi : ∀ x : String, String.intercalate "&" [x] = x := fun x => rfl
  have hi2 : ∀ x y : String, String.intercalate "&" [x, y] = x ++ "&" ++ y :=
    fun x y => rfl
  have hf : jsNumTruthy none = false := rfl
  refine ⟨rfl, ?_, ?_, ?_, fun _ => rfl, fun _ => rfl⟩
  · intro l hl
    have ht : jsNumTruthy (some l) = true := by simp [jsNumTruthy, hl]
    have hne : ("limit=" ++ toString l) ≠ "" := appendNeEmpty _ _ (by decide)
    simp only [bucketDataListEndpoint]
    simp [ht, hf, hi, String.append_assoc]
    rw [strGlue "limit" "=" "limit=" rfl]
    rw [if_neg hne]
    rw [strGlue "/data?" "limit=" "/data?limit=" rfl]
  · intro s hs
    have ht : jsNumTruthy (some s) = true := by simp [jsNumTruthy, hs]
    have hne : ("skip=" ++ toString s) ≠ "" := appendNeEmpty _ _ (by decide)
    simp only [bucketDataListEndpoint]
    simp [ht, hf, hi, String.append_assoc]
    rw [strGlue "skip" "=" "skip=" rfl]
    rw [if_neg hne]
    rw [strGlue "/data?" "skip=" "/data?skip=" rfl]
  · intro l s hl hs
    have htl : jsNumTruthy (some l) = true := by simp [jsNumTruthy, hl]
    have hts : jsNumTruthy (some s) = true := by simp [jsNumTruthy, hs]
    have hne : ("limit=" ++ (toString l ++ ("&skip=" ++ toString s))) ≠ "" :=
      appendNeEmpty _ _ (by decide)
    simp only [bucketDataListEndpoint]
    simp [htl, hts, hi2, String.append_assoc]
    rw [strGlue "limit" "=" "limit=" rfl]
    rw [strGlue "skip" "=" "skip=" rfl]
    rw [strGlue "&" "skip=" "&skip=" rfl]
    rw [if_neg hne]
    rw [strGlue "/data?" "limit=" "/data?limit=" rfl]

/-- Witness for C9: limit 5 and skip 2 are both passed through. -/
theorem c9_pagination_params_witness :
    bucketDataListEndpoint "b1" (some 5) (some 2) = "/bucket/b1/data?limit=5&skip=2" := by
  have h := ((c9_pagination_params "b1").2.2.2.1) 5 2 (by decide) (by decide)
  exact h

/-- Counterexample for C9 as stated: a supplied limit of 0 is dropped from
the query string because the source guards each parameter with a
truthiness check, while the claim requires every supplied limit to be
passed through. -/
theorem c9_zero_limit_counterexample :
    bucketDataListEndpoint "b1" (some 0) (some 2) = "/bucket/b1/data?skip=2" ∧
    "/bucket/b1/data?skip=2" ≠ "/bucket/b1/data?limit=0&skip=2" := by
  exact ⟨rfl, by decide⟩
